import Mathlib

/-!
Verification of the core logic of `routes_visualization.py` (bird-migration
H3 route explorer): point-to-cell resolution, role classification of cells,
the origin/target selection state machine, and the route lookup.

The embedding follows the source script:
* `resolvePoint` models the click handler's spatial query
  (`df.sindex.intersection(point.bounds)` followed by
  `candidates.contains(point)` and `hit.iloc[0]["cell"]`);
* `departure_cells` / `destination_cells` model the role sets built from
  `df["value_wintering"] > 0` and `df["value_breeding"] > 0`;
* `trySelect` models the selection branch of the click handler
  (`if origin is None ... elif target is None ...`);
* `route_row` models the route-drawing block
  (`if origin and target: key = (origin, target); if key in routes_idx.index:
  route_row = routes_idx.loc[key]`), where `routes_idx` is the route table
  indexed by `(departure_cell, destination_cell)` via pandas `set_index`
  (which keeps duplicate keys, and `.loc` returns every row matching the key);
* `highlighted` models the selected-cell drawing block
  (`if origin: draw_h3(origin, "green")`, `if target: draw_h3(target, "red")`).

Cell identifiers are modelled as Python scalar tokens (strings or integers)
together with their Python truthiness, since the script mixes `is None` tests
with truthiness tests on the selection slots. Geographic coordinates are
modelled as rationals. The shapely polygon of a cell is modelled as its exact
containment predicate together with its bounding box; the geometric fact that
the spatial index is built over geometry envelopes (a point inside a polygon
lies inside the polygon's bounding box) is the well-formedness predicate
`Cell.envelopeOk`.
-/

namespace BirdMigration

/-- A Python scalar used as a cell identifier: the `cell` column holds either
string or integer tokens. -/
inductive CellId where
  | str : String → CellId
  | int : Int → CellId
deriving DecidableEq, Repr

/-- Python truthiness of a cell identifier: the empty string and the integer
zero are falsy, everything else is truthy. -/
def CellId.truthy : CellId → Bool
  | .str s => decide (s ≠ "")
  | .int n => decide (n ≠ 0)

/-- A geographic point, as built by `Point(lon, lat)` from a click. -/
structure Point where
  lon : ℚ
  lat : ℚ
deriving DecidableEq, Repr

/-- An axis-aligned bounding box (a geometry envelope, as used by the
GeoPandas spatial index `df.sindex`). -/
structure BBox where
  minLon : ℚ
  minLat : ℚ
  maxLon : ℚ
  maxLat : ℚ
deriving DecidableEq, Repr

/-- Whether the (degenerate) bounds of a point intersect a bounding box,
i.e. whether the closed box contains the point. This is the coarse filter
performed by `df.sindex.intersection(point.bounds)`. -/
def BBox.coversPoint (b : BBox) (p : Point) : Bool :=
  decide (b.minLon ≤ p.lon ∧ p.lon ≤ b.maxLon ∧ b.minLat ≤ p.lat ∧ p.lat ≤ b.maxLat)

/-- One row of the cell table `h3_abundance.csv`: the cell identifier, the
envelope of its polygon (what the spatial index stores), the exact
point-containment predicate of its polygon (shapely `contains`, true exactly
on the interior), and the two abundance attributes used for role
classification. -/
structure Cell where
  cell : CellId
  bounds : BBox
  contains : Point → Bool
  value_wintering : ℚ
  value_breeding : ℚ

/-- Well-formedness of a cell row: its stored bounding box really is an
envelope of its polygon, so every point the polygon contains lies inside the
box. GeoPandas guarantees this by construction of `df.sindex`. -/
def Cell.envelopeOk (c : Cell) : Prop :=
  ∀ p : Point, c.contains p = true → c.bounds.coversPoint p = true

/-- The coarse filter of the click handler:
`idx = list(df.sindex.intersection(point.bounds)); candidates = df.iloc[idx]`.
Rows whose geometry envelope contains the clicked point, in index order. -/
def sindexCandidates (cells : List Cell) (p : Point) : List Cell :=
  cells.filter (fun c => c.bounds.coversPoint p)

/-- The fine filter: `hit = candidates[candidates.contains(point)]`. -/
def resolveHits (cells : List Cell) (p : Point) : List Cell :=
  (sindexCandidates cells p).filter (fun c => c.contains p)

/-- Point-to-cell resolution of the click handler:
`if not hit.empty: cell = hit.iloc[0]["cell"]`, and the click is ignored
when `hit` is empty. -/
def resolvePoint (cells : List Cell) (p : Point) : Option CellId :=
  match resolveHits cells p with
  | [] => none
  | c :: _ => some c.cell

/-- `departure_cells = set(df.loc[df["value_wintering"] > 0, "cell"])`. -/
def departure_cells (cells : List Cell) : List CellId :=
  (cells.filter (fun c => decide (0 < c.value_wintering))).map Cell.cell

/-- `destination_cells = set(df.loc[df["value_breeding"] > 0, "cell"])`. -/
def destination_cells (cells : List Cell) : List CellId :=
  (cells.filter (fun c => decide (0 < c.value_breeding))).map Cell.cell

/-- The selection session state: `st.session_state.origin` and
`st.session_state.target`, each either `None` or a cell identifier. -/
structure Selection where
  origin : Option CellId
  target : Option CellId
deriving DecidableEq, Repr

/-- The selection branch of the click handler, given the resolved cell:
`if origin is None: if cell in departure_cells: origin = cell else warning;
elif target is None: if cell in destination_cells: target = cell else warning;
else: nothing`. Returns the updated session state together with the warning
message passed to `st.warning`, if any. -/
def trySelect (departure destination : List CellId) (s : Selection) (cell : CellId) :
    Selection × Option String :=
  match s.origin with
  | none =>
      if cell ∈ departure then ({ s with origin := some cell }, none)
      else (s, some "Not a valid departure cell")
  | some _ =>
      match s.target with
      | none =>
          if cell ∈ destination then ({ s with target := some cell }, none)
          else (s, some "Not a valid destination cell")
      | some _ => (s, none)

/-- The Reset button handler: `st.session_state.origin = None;
st.session_state.target = None`. -/
def resetSelection (_s : Selection) : Selection :=
  { origin := none, target := none }

/-- One row of the route table: the two key columns the pandas index is built
on, and the `path` polyline as (lat, lon) pairs. Further metadata columns are
carried opaquely by the row and play no role in the lookup. -/
structure RouteRecord where
  departure_cell : CellId
  destination_cell : CellId
  path : List (ℚ × ℚ)
deriving DecidableEq, Repr

/-- All rows of the route table whose index key equals `(o, d)`: what
`routes_idx.loc[(o, d)]` selects after
`set_index(["departure_cell", "destination_cell"])`. pandas `set_index`
keeps duplicate keys, so this is a list, in table order. -/
def locMatches (routes : List RouteRecord) (o d : CellId) : List RouteRecord :=
  routes.filter (fun r => decide (r.departure_cell = o ∧ r.destination_cell = d))

/-- The route-drawing block:
`route_row = None; if origin and target: key = (origin, target);
if key in routes_idx.index: route_row = routes_idx.loc[key]`.
The guard is Python truthiness of both slots (`None`, `0` and `""` are all
falsy); the membership test `key in routes_idx.index` succeeds iff some row
matches, and `.loc[key]` then yields every matching row. -/
def route_row (routes : List RouteRecord) (origin target : Option CellId) :
    Option (List RouteRecord) :=
  match origin, target with
  | some o, some t =>
      if o.truthy && t.truthy then
        let rows := locMatches routes o t
        if rows.isEmpty then none else some rows
      else none
  | _, _ => none

/-- The selected-cell drawing block: `if origin: draw_h3(origin, "green")`,
`if target: draw_h3(target, "red")` — again guarded by Python truthiness.
Returns the list of (cell, color) pairs actually drawn. -/
def highlighted (s : Selection) : List (CellId × String) :=
  (match s.origin with
   | some o => if o.truthy then [(o, "green")] else []
   | none => []) ++
  (match s.target with
   | some t => if t.truthy then [(t, "red")] else []
   | none => [])

/-- Claim C7: Reset, invoked from any selection state, clears both origin and
target to `None`, and the subsequent route lookup returns `None`. -/
theorem reset_clears_selection (s : Selection) (routes : List RouteRecord) :
    (resetSelection s).origin = none ∧ (resetSelection s).target = none ∧
      route_row routes (resetSelection s).origin (resetSelection s).target = none := by
  refine ⟨rfl, rfl, ?_⟩
  rfl

/-- Claim C3: with no origin selected, clicking a cell outside
`departure_cells` leaves both slots unchanged and emits the
"Not a valid departure cell" warning; with an origin selected and no target,
clicking a cell outside `destination_cells` leaves both slots unchanged and
emits the "Not a valid destination cell" warning. The warning is a user-facing
message (`st.warning`), not a state change. -/
theorem trySelect_rejects_wrong_role (departure destination : List CellId)
    (s : Selection) (x : CellId) :
    (s.origin = none → x ∉ departure →
        trySelect departure destination s x = (s, some "Not a valid departure cell")) ∧
    (s.origin ≠ none → s.target = none → x ∉ destination →
        trySelect departure destination s x = (s, some "Not a valid destination cell")) := by
  obtain ⟨so, st⟩ := s
  constructor
  · intro h1 h2
    obtain rfl : so = none := h1
    simp [trySelect, h2]
  · intro h1 h2 h3
    obtain rfl : st = none := h2
    cases so with
    | none => exact absurd rfl h1
    | some o => simp [trySelect, h3]

theorem trySelect_rejects_wrong_role_witness :
    trySelect [CellId.str "A"] [CellId.str "B"]
        { origin := none, target := none } (CellId.str "C")
      = ({ origin := none, target := none }, some "Not a valid departure cell") ∧
    trySelect [CellId.str "A"] [CellId.str "B"]
        { origin := some (CellId.str "A"), target := none } (CellId.str "C")
      = ({ origin := some (CellId.str "A"), target := none },
          some "Not a valid destination cell") :=
  ⟨(trySelect_rejects_wrong_role _ _ _ _).1 rfl (by decide),
   (trySelect_rejects_wrong_role _ _ _ _).2 (by simp) rfl (by decide)⟩

/-- Claim C4: once both origin and target are set, `trySelect` is a no-op for
every cell: the state is returned unchanged with no warning, and iterating
the selection step any number of times leaves the state identical. -/
theorem trySelect_complete_noop (departure destination : List CellId)
    (s : Selection) (x : CellId) (ho : s.origin ≠ none) (ht : s.target ≠ none) :
    trySelect departure destination s x = (s, none) ∧
    ∀ n : ℕ, (fun t => (trySelect departure destination t x).1)^[n] s = s := by
  obtain ⟨so, st⟩ := s
  cases so with
  | none => exact absurd rfl ho
  | some o =>
    cases st with
    | none => exact absurd rfl ht
    | some t =>
      refine ⟨rfl, fun n => ?_⟩
      induction n with
      | zero => rfl
      | succ k ih =>
          rw [Function.iterate_succ_apply', ih]
          rfl

theorem trySelect_complete_noop_witness :
    trySelect [CellId.str "A"] [CellId.str "B"]
        { origin := some (CellId.str "A"), target := some (CellId.str "B") }
        (CellId.str "A")
      = ({ origin := some (CellId.str "A"), target := some (CellId.str "B") }, none) :=
  (trySelect_complete_noop [CellId.str "A"] [CellId.str "B"]
      { origin := some (CellId.str "A"), target := some (CellId.str "B") }
      (CellId.str "A") (by simp) (by simp)).1

/-- Claim C8: selection invariant. A non-`None` origin is never overwritten
by `trySelect` (whatever cell is clicked, in whatever state), and the target
slot can only change when the origin is already non-`None`. -/
theorem selection_invariant (departure destination : List CellId)
    (s : Selection) (x : CellId) :
    (∀ o : CellId, s.origin = some o →
        (trySelect departure destination s x).1.origin = some o) ∧
    ((trySelect departure destination s x).1.target ≠ s.target →
        s.origin ≠ none) := by
  obtain ⟨so, st⟩ := s
  cases so with
  | none =>
    refine ⟨fun o h => (nomatch h), fun h => absurd ?_ h⟩
    by_cases hx : x ∈ departure <;> simp [trySelect, hx]
  | some o' =>
    refine ⟨fun o h => ?_, fun _ => by simp⟩
    have hkeep : (trySelect departure destination
        { origin := some o', target := st } x).1.origin = some o' := by
      cases st with
      | none => by_cases hx : x ∈ destination <;> simp [trySelect, hx]
      | some t => simp [trySelect]
    rw [hkeep]
    exact h

theorem selection_invariant_witness :
    (trySelect [CellId.str "A"] [CellId.str "B"]
        { origin := some (CellId.str "A"), target := none }
        (CellId.str "B")).1.origin = some (CellId.str "A") :=
  (selection_invariant [CellId.str "A"] [CellId.str "B"]
      { origin := some (CellId.str "A"), target := none }
      (CellId.str "B")).1 (CellId.str "A") rfl

/-- Claim C10: self-routes are permitted. With an origin selected and no
target, clicking the very cell already chosen as origin sets the target to
that same cell whenever it belongs to `destination_cells`; nothing forbids
`origin = target`. -/
theorem self_route_allowed (departure destination : List CellId)
    (s : Selection) (x : CellId) (ho : s.origin = some x) (ht : s.target = none)
    (hx : x ∈ destination) :
    trySelect departure destination s x
      = ({ origin := some x, target := some x }, none) := by
  obtain ⟨so, st⟩ := s
  obtain rfl : so = some x := ho
  obtain rfl : st = none := ht
  simp [trySelect, hx]

theorem self_route_allowed_witness :
    trySelect [CellId.str "A"] [CellId.str "A"]
        { origin := some (CellId.str "A"), target := none } (CellId.str "A")
      = ({ origin := some (CellId.str "A"), target := some (CellId.str "A") }, none) :=
  self_route_allowed [CellId.str "A"] [CellId.str "A"]
      { origin := some (CellId.str "A"), target := none } (CellId.str "A")
      rfl rfl (by decide)

/-- Claim C5: when no route row carries exactly the ordered key
`(origin, destination)`, the lookup yields `None`; the reversed pair is never
consulted, so `get(o, d)` can be `None` while `get(d, o)` is not (the witness
exhibits this asymmetry on a one-row table). -/
theorem route_lookup_exact_ordered_key (routes : List RouteRecord) (o d : CellId)
    (habsent : ∀ r ∈ routes, ¬(r.departure_cell = o ∧ r.destination_cell = d)) :
    route_row routes (some o) (some d) = none := by
  have hnil : locMatches routes o d = [] := by
    rw [locMatches, List.filter_eq_nil_iff]
    intro r hr
    simpa using habsent r hr
  simp [route_row, hnil]

def reversedOnlyRoute : RouteRecord :=
  { departure_cell := CellId.str "B", destination_cell := CellId.str "A",
    path := [(40, -85), (41, -86)] }

theorem route_lookup_exact_ordered_key_witness :
    route_row [reversedOnlyRoute] (some (CellId.str "A")) (some (CellId.str "B"))
        = none ∧
    route_row [reversedOnlyRoute] (some (CellId.str "B")) (some (CellId.str "A"))
        = some [reversedOnlyRoute] :=
  ⟨route_lookup_exact_ordered_key [reversedOnlyRoute]
      (CellId.str "A") (CellId.str "B") (by decide),
   by decide⟩

def dupRouteOld : RouteRecord :=
  { departure_cell := CellId.str "A", destination_cell := CellId.str "B",
    path := [(40, -85), (41, -86)] }

def dupRouteNew : RouteRecord :=
  { departure_cell := CellId.str "A", destination_cell := CellId.str "B",
    path := [(42, -87)] }

/-- Claim C6, counterexample: pandas `set_index` keeps duplicate keys and
`.loc[key]` then selects every matching row, so on a table with two rows for
the key ("A", "B") the lookup yields both rows — not the single last one. -/
theorem route_lookup_duplicates_counterexample :
    route_row [dupRouteOld, dupRouteNew] (some (CellId.str "A")) (some (CellId.str "B"))
        = some [dupRouteOld, dupRouteNew] ∧
    some [dupRouteOld, dupRouteNew] ≠ some [dupRouteNew] := by
  constructor
  · decide
  · decide

/-- Claim C6 (amended): for a truthy ordered key occurring in the route
table, the lookup yields exactly the rows of the table carrying that key, in
table order — every row matches the key, the given row is among them, and
when the key occurs exactly once the result is that single row (rather than
the last duplicate winning). -/
theorem route_lookup_roundtrip (routes : List RouteRecord) (r : RouteRecord)
    (hr : r ∈ routes) (ho : r.departure_cell.truthy = true)
    (hd : r.destination_cell.truthy = true) :
    route_row routes (some r.departure_cell) (some r.destination_cell)
        = some (locMatches routes r.departure_cell r.destination_cell) ∧
    r ∈ locMatches routes r.departure_cell r.destination_cell ∧
    (∀ q ∈ locMatches routes r.departure_cell r.destination_cell,
        q.departure_cell = r.departure_cell ∧ q.destination_cell = r.destination_cell) ∧
    (∀ l₁ l₂, routes = l₁ ++ r :: l₂ →
        (∀ q ∈ l₁ ++ l₂,
            ¬(q.departure_cell = r.departure_cell ∧
              q.destination_cell = r.destination_cell)) →
        route_row routes (some r.departure_cell) (some r.destination_cell)
            = some [r]) := by
  have hmem : r ∈ locMatches routes r.departure_cell r.destination_cell := by
    rw [locMatches, List.mem_filter]
    exact ⟨hr, by simp⟩
  have hne : (locMatches routes r.departure_cell r.destination_cell).isEmpty = false := by
    cases hl : locMatches routes r.departure_cell r.destination_cell with
    | nil => rw [hl] at hmem; cases hmem
    | cons a l => rfl
  refine ⟨?_, hmem, ?_, ?_⟩
  · simp [route_row, ho, hd, hne]
  · intro q hq
    rw [locMatches, List.mem_filter] at hq
    simpa using hq.2
  · intro l₁ l₂ hsplit hrest
    have h₁ : locMatches l₁ r.departure_cell r.destination_cell = [] := by
      rw [locMatches, List.filter_eq_nil_iff]
      intro q hq
      simpa using hrest q (List.mem_append_left l₂ hq)
    have h₂ : locMatches l₂ r.departure_cell r.destination_cell = [] := by
      rw [locMatches, List.filter_eq_nil_iff]
      intro q hq
      simpa using hrest q (List.mem_append_right l₁ hq)
    have hone : locMatches routes r.departure_cell r.destination_cell = [r] := by
      rw [locMatches] at h₁ h₂
      rw [hsplit, locMatches, List.filter_append, h₁, List.nil_append,
        List.filter_cons_of_pos (by simp), h₂]
    simp [route_row, ho, hd, hone]

theorem route_lookup_roundtrip_witness :
    route_row [dupRouteOld] (some (CellId.str "A")) (some (CellId.str "B"))
        = some [dupRouteOld] :=
  (route_lookup_roundtrip [dupRouteOld] dupRouteOld (by simp) (by decide)
      (by decide)).2.2.2 [] [] rfl (by simp)

/-- Claim C9: a falsy cell identifier (the integer 0 or the empty string) in
either selection slot disables the route lookup and the highlighting of that
cell, even though both slots are set and a matching route row exists: the
drawing and lookup guards test Python truthiness while the selection branch
tests `is None`. -/
theorem falsy_id_disables_route_and_highlight (routes : List RouteRecord)
    (o t : CellId) (hfalsy : o.truthy = false ∨ t.truthy = false)
    (r : RouteRecord) (hr : r ∈ routes)
    (hro : r.departure_cell = o) (hrt : r.destination_cell = t) :
    route_row routes (some o) (some t) = none ∧
    (o.truthy = false →
        ∀ col : String, (o, col) ∉ highlighted { origin := some o, target := some t }) ∧
    (t.truthy = false →
        ∀ col : String, (t, col) ∉ highlighted { origin := some o, target := some t }) := by
  refine ⟨?_, ?_, ?_⟩
  · rcases hfalsy with h | h <;> simp [route_row, h]
  · intro h col hmem
    by_cases h2 : t.truthy
    · have hot : o = t ∧ col = "red" := by
        simpa [highlighted, h, h2] using hmem
      simp [hot.1, h2] at h
    · simp [highlighted, h, h2] at hmem
  · intro h col hmem
    by_cases h2 : o.truthy
    · have hto : t = o ∧ col = "green" := by
        simpa [highlighted, h, h2] using hmem
      simp [hto.1, h2] at h
    · simp [highlighted, h, h2] at hmem

def falsyOriginRoute : RouteRecord :=
  { departure_cell := CellId.int 0, destination_cell := CellId.str "B",
    path := [(40, -85)] }

theorem falsy_id_disables_route_and_highlight_witness :
    route_row [falsyOriginRoute] (some (CellId.int 0)) (some (CellId.str "B"))
        = none ∧
    (CellId.int 0, "green") ∉
        highlighted { origin := some (CellId.int 0), target := some (CellId.str "B") } := by
  have h := falsy_id_disables_route_and_highlight [falsyOriginRoute]
      (CellId.int 0) (CellId.str "B") (Or.inl (by decide)) falsyOriginRoute
      (by simp) rfl rfl
  exact ⟨h.1, h.2.1 (by decide) "green"⟩

/-- Claim C1: `resolvePoint` is a two-stage containment query over
well-formed cells (whose spatial-index bounding box is an envelope of their
polygon). If the clicked point is strictly inside exactly one cell's polygon,
it resolves to that cell's identifier; if it is outside every cell's polygon,
it resolves to `None` and the click is ignored. -/
theorem resolvePoint_two_stage (cells : List Cell) (p : Point)
    (hok : ∀ c ∈ cells, c.envelopeOk) :
    (∀ c ∈ cells, c.contains p = true →
        (∀ c' ∈ cells, c'.contains p = true → c' = c) →
        resolvePoint cells p = some c.cell) ∧
    ((∀ c ∈ cells, c.contains p = false) → resolvePoint cells p = none) := by
  constructor
  · intro c hc hcp huniq
    have hmem : c ∈ resolveHits cells p := by
      rw [resolveHits, List.mem_filter, sindexCandidates, List.mem_filter]
      exact ⟨⟨hc, hok c hc p hcp⟩, hcp⟩
    have hall : ∀ x ∈ resolveHits cells p, x = c := by
      intro x hx
      rw [resolveHits, List.mem_filter, sindexCandidates, List.mem_filter] at hx
      exact huniq x hx.1.1 hx.2
    cases hh : resolveHits cells p with
    | nil => rw [hh] at hmem; cases hmem
    | cons x rest =>
        have hx : x = c := hall x (by rw [hh]; exact List.mem_cons_self x rest)
        rw [resolvePoint, hh, hx]
  · intro hout
    have hnil : resolveHits cells p = [] := by
      rw [resolveHits, List.filter_eq_nil_iff]
      intro a ha
      rw [sindexCandidates, List.mem_filter] at ha
      simp [hout a ha.1]
    rw [resolvePoint, hnil]

def unitSquareCell : Cell :=
  { cell := CellId.str "c0",
    bounds := { minLon := 0, minLat := 0, maxLon := 2, maxLat := 2 },
    contains := fun q => decide (0 < q.lon ∧ q.lon < 2 ∧ 0 < q.lat ∧ q.lat < 2),
    value_wintering := 1,
    value_breeding := 0 }

theorem unitSquareCell_envelopeOk : unitSquareCell.envelopeOk := by
  intro q hq
  simp only [unitSquareCell, decide_eq_true_eq] at hq
  obtain ⟨h1, h2, h3, h4⟩ := hq
  simp only [unitSquareCell, BBox.coversPoint, decide_eq_true_eq]
  exact ⟨le_of_lt h1, le_of_lt h2, le_of_lt h3, le_of_lt h4⟩

theorem resolvePoint_two_stage_witness :
    resolvePoint [unitSquareCell] { lon := 1, lat := 1 } = some (CellId.str "c0") := by
  have h := resolvePoint_two_stage [unitSquareCell] { lon := 1, lat := 1 }
      (fun c hc => by rw [List.mem_singleton] at hc; rw [hc];
                      exact unitSquareCell_envelopeOk)
  refine h.1 unitSquareCell (List.mem_singleton_self _) (by decide) ?_
  intro c' hc' _
  rwa [List.mem_singleton] at hc'

/-- Claim C2: a cell's identifier belongs to `departure_cells` iff its
`value_wintering` attribute is strictly positive, belongs to
`destination_cells` iff its `value_breeding` attribute is strictly positive,
and a cell with both attributes positive belongs to both sets (the roles are
not disjoint). Cell identifiers are unique across the table. -/
theorem classify_roles (cells : List Cell) (c : Cell) (hc : c ∈ cells)
    (hu : ∀ c' ∈ cells, c'.cell = c.cell → c' = c) :
    (c.cell ∈ departure_cells cells ↔ 0 < c.value_wintering) ∧
    (c.cell ∈ destination_cells cells ↔ 0 < c.value_breeding) ∧
    (0 < c.value_wintering → 0 < c.value_breeding →
      c.cell ∈ departure_cells cells ∧ c.cell ∈ destination_cells cells) := by
  have hdep : c.cell ∈ departure_cells cells ↔ 0 < c.value_wintering := by
    constructor
    · intro h
      rw [departure_cells, List.mem_map] at h
      obtain ⟨c', hc', he⟩ := h
      rw [List.mem_filter] at hc'
      have hcc : c' = c := hu c' hc'.1 he
      rw [← hcc]
      exact of_decide_eq_true hc'.2
    · intro h
      rw [departure_cells, List.mem_map]
      exact ⟨c, List.mem_filter.mpr ⟨hc, decide_eq_true h⟩, rfl⟩
  have hdest : c.cell ∈ destination_cells cells ↔ 0 < c.value_breeding := by
    constructor
    · intro h
      rw [destination_cells, List.mem_map] at h
      obtain ⟨c', hc', he⟩ := h
      rw [List.mem_filter] at hc'
      have hcc : c' = c := hu c' hc'.1 he
      rw [← hcc]
      exact of_decide_eq_true hc'.2
    · intro h
      rw [destination_cells, List.mem_map]
      exact ⟨c, List.mem_filter.mpr ⟨hc, decide_eq_true h⟩, rfl⟩
  exact ⟨hdep, hdest, fun h1 h2 => ⟨hdep.mpr h1, hdest.mpr h2⟩⟩

def bothRolesCell : Cell :=
  { cell := CellId.str "A",
    bounds := { minLon := 0, minLat := 0, maxLon := 1, maxLat := 1 },
    contains := fun _ => false,
    value_wintering := 5,
    value_breeding := 3 }

theorem classify_roles_witness :
    CellId.str "A" ∈ departure_cells [bothRolesCell] ∧
    CellId.str "A" ∈ destination_cells [bothRolesCell] := by
  have h := classify_roles [bothRolesCell] bothRolesCell (List.mem_singleton_self _)
      (fun c' hc' _ => by rwa [List.mem_singleton] at hc')
  exact h.2.2 (by norm_num [bothRolesCell]) (by norm_num [bothRolesCell])

end BirdMigration
